import Mathlib

/-!
Verification of the SICP (Serial/IP Control Protocol) codec and command
engine of the philips_sicp_py_ha repository, shallowly embedded in Lean.

Byte strings are modelled as `List Nat` (each element a byte value).
The repository contains two protocol variants: a synchronous one under
src/src/sicppy (message builders in messages.py, classifier in response.py,
engine in protocol.py) and an asyncio one under src/lib/sicppy (engine in
protocol.py, transport in ip_monitor.py).  Definitions below are translated
from those sources; names follow the Python names.
-/

namespace Sicppy

/-- XOR checksum of all bytes, from messages.py calculate_checksum. -/
def calculate_checksum (bytes_list : List Nat) : Nat :=
  bytes_list.foldl (fun acc b => acc ^^^ b) 0

/-- Communication-control opcode (messages.py CMD_COMMUNICATION_CONTROL). -/
def CMD_COMMUNICATION_CONTROL : Nat := 0x00

def CMD_POWER_STATE_SET : Nat := 0x18

def CMD_VIDEO_PARAMETERS_SET : Nat := 0x32

def CMD_COLOR_TEMPERATURE_SET : Nat := 0x34

def CMD_COLOR_TEMPERATURE_FINE_SET : Nat := 0x11

def CMD_MONITOR_ID_SET : Nat := 0x69

def CMD_BACKLIGHT_SET : Nat := 0x72

def CMD_GROUP_ID_SET : Nat := 0x5C

def CMD_VOLUME_SET : Nat := 0x44

def CMD_INPUT_SOURCE_SET : Nat := 0xAC

def CMD_TEMPERATURE_GET : Nat := 0x2F

def CMD_SICP_INFO_GET : Nat := 0xA2

def CMD_IP_PARAMETER_GET : Nat := 0x82

def RESPONSE_ACK : Nat := 0x06

def RESPONSE_NAV : Nat := 0x18

def RESPONSE_NACK : Nat := 0x15

def POWER_ON : Nat := 0x02

def POWER_OFF : Nat := 0x01

/-- Group id used by every request this system builds (messages.py GROUP_ID). -/
def GROUP_ID : Nat := 0x00

/-- Color-temperature mode code for USER2 (messages.py COLOR_TEMPERATURE_MODES). -/
def ColorTemperatureMode_USER2 : Nat := 0x12

/-- Modelled from the spec: the asyncio variant (lib/sicppy/sicppy/protocol.py)
imports a generic builder named construct_message from a messages module that is
not among the provided sources.  Per spec section 4.1, build_request emits
[size, device_id, 0x00, command, params..., checksum] with
size = 4 + params.len() + 1 and checksum the XOR of every prior byte. -/
def construct_message (monitor_id command : Nat) (params : List Nat) : List Nat :=
  let msg_size := 4 + params.length + 1
  let body := [msg_size, monitor_id, GROUP_ID, command] ++ params
  body ++ [calculate_checksum body]

/-- Power set request, from messages.py build_power_message. -/
def build_power_message (monitor_id : Nat) (power_on : Bool) : List Nat :=
  let msg_size := 0x06
  let param := if power_on then POWER_ON else POWER_OFF
  let body := [msg_size, monitor_id, GROUP_ID, CMD_POWER_STATE_SET, param]
  body ++ [calculate_checksum body]

/-- Video-parameters set request (7 parameter bytes, each masked with 0xFF),
from messages.py build_video_parameters_set_message. -/
def build_video_parameters_set_message (monitor_id : Nat)
    (brightness color contrast sharpness tint black_level gamma : Nat) : List Nat :=
  let msg_size := 0x0C
  let payload := [brightness &&& 0xFF, color &&& 0xFF, contrast &&& 0xFF,
    sharpness &&& 0xFF, tint &&& 0xFF, black_level &&& 0xFF, gamma &&& 0xFF]
  let body := [msg_size, monitor_id, GROUP_ID, CMD_VIDEO_PARAMETERS_SET] ++ payload
  body ++ [calculate_checksum body]

/-- Color-temperature preset set request, from messages.py
build_color_temperature_set_message. -/
def build_color_temperature_set_message (monitor_id mode_code : Nat) : List Nat :=
  let msg_size := 0x06
  let body := [msg_size, monitor_id, GROUP_ID, CMD_COLOR_TEMPERATURE_SET, mode_code]
  body ++ [calculate_checksum body]

/-- 100K-step fine color-temperature set request, from messages.py
build_color_temperature_fine_set_message. -/
def build_color_temperature_fine_set_message (monitor_id step_value : Nat) : List Nat :=
  let msg_size := 0x06
  let body := [msg_size, monitor_id, GROUP_ID, CMD_COLOR_TEMPERATURE_FINE_SET, step_value]
  body ++ [calculate_checksum body]

/-- Monitor-id reassignment request, from messages.py build_monitor_id_set_message. -/
def build_monitor_id_set_message (monitor_id new_monitor_id : Nat) : List Nat :=
  let msg_size := 0x06
  let body := [msg_size, monitor_id, GROUP_ID, CMD_MONITOR_ID_SET, new_monitor_id]
  body ++ [calculate_checksum body]

/-- Volume set request; a missing level is encoded as the 0xFF no-change
sentinel, from messages.py build_volume_set_message. -/
def build_volume_set_message (monitor_id : Nat)
    (speaker_level audio_out_level : Option Nat) : List Nat :=
  let speaker := speaker_level.getD 0xFF
  let audio_out := audio_out_level.getD 0xFF
  let msg_size := 0x07
  let body := [msg_size, monitor_id, GROUP_ID, CMD_VOLUME_SET, speaker, audio_out]
  body ++ [calculate_checksum body]

/-- Input-source set request with its three trailing selector bytes, from
messages.py build_input_source_message. -/
def build_input_source_message (monitor_id input_source_code playlist osd_style
    effect_duration : Nat) : List Nat :=
  let msg_size := 0x09
  let body := [msg_size, monitor_id, GROUP_ID, CMD_INPUT_SOURCE_SET,
    input_source_code, playlist, osd_style, effect_duration]
  body ++ [calculate_checksum body]

/-- IP-parameter get request, from messages.py build_ip_parameter_get_message. -/
def build_ip_parameter_get_message (monitor_id parameter_code value_type_code : Nat) :
    List Nat :=
  let msg_size := 0x07
  let body := [msg_size, monitor_id, GROUP_ID, CMD_IP_PARAMETER_GET,
    parameter_code, value_type_code]
  body ++ [calculate_checksum body]

theorem getLast?_append_singleton (l : List Nat) (c : Nat) :
    (l ++ [c]).getLast? = some c := by
  simp

theorem dropLast_append_singleton (l : List Nat) (c : Nat) :
    (l ++ [c]).dropLast = l := by
  simp

theorem construct_message_length (monitor_id command : Nat) (params : List Nat) :
    (construct_message monitor_id command params).length = 4 + params.length + 1 := by
  simp [construct_message]
  omega

/-- C1.  For every monitor id, command opcode, and parameter-byte list (any
number of parameter bytes, so in particular 0 up to 7), the constructed
request has byte 0 equal to the total byte length of the message and final
byte equal to the XOR of every preceding byte; and the concrete builders of
messages.py (including the largest, the 7-parameter video-parameters set
message) all produce exactly such requests. -/
theorem sicp_request_size_and_checksum (monitor_id command : Nat) (params : List Nat) :
    ((construct_message monitor_id command params).head? =
        some (construct_message monitor_id command params).length
      ∧ (construct_message monitor_id command params).getLast? =
        some (calculate_checksum (construct_message monitor_id command params).dropLast))
    ∧ (∀ pw, build_power_message monitor_id pw =
        construct_message monitor_id CMD_POWER_STATE_SET [if pw then POWER_ON else POWER_OFF])
    ∧ (∀ b c ct s t bl g, build_video_parameters_set_message monitor_id b c ct s t bl g =
        construct_message monitor_id CMD_VIDEO_PARAMETERS_SET
          [b &&& 0xFF, c &&& 0xFF, ct &&& 0xFF, s &&& 0xFF, t &&& 0xFF, bl &&& 0xFF, g &&& 0xFF])
    ∧ (∀ sp ao, build_volume_set_message monitor_id sp ao =
        construct_message monitor_id CMD_VOLUME_SET [sp.getD 0xFF, ao.getD 0xFF])
    ∧ (∀ mode, build_color_temperature_set_message monitor_id mode =
        construct_message monitor_id CMD_COLOR_TEMPERATURE_SET [mode])
    ∧ (∀ step, build_color_temperature_fine_set_message monitor_id step =
        construct_message monitor_id CMD_COLOR_TEMPERATURE_FINE_SET [step])
    ∧ (∀ nid, build_monitor_id_set_message monitor_id nid =
        construct_message monitor_id CMD_MONITOR_ID_SET [nid])
    ∧ (∀ src pl osd eff, build_input_source_message monitor_id src pl osd eff =
        construct_message monitor_id CMD_INPUT_SOURCE_SET [src, pl, osd, eff])
    ∧ (∀ pc vt, build_ip_parameter_get_message monitor_id pc vt =
        construct_message monitor_id CMD_IP_PARAMETER_GET [pc, vt]) := by
  refine ⟨⟨?_, ?_⟩, ?_, ?_, ?_, ?_, ?_, ?_, ?_, ?_⟩
  · rw [construct_message_length]
    rfl
  · simp only [construct_message]
    rw [getLast?_append_singleton, dropLast_append_singleton]
  · intro pw; rfl
  · intro b c ct s t bl g; rfl
  · intro sp ao; rfl
  · intro mode; rfl
  · intro step; rfl
  · intro nid; rfl
  · intro src pl osd eff; rfl
  · intro pc vt; rfl

/-- Parsed response state, mirroring the fields the SicpResponse class sets in
its constructor (response.py). -/
structure SicpRespState where
  valid : Bool
  is_ack : Bool
  is_nav : Bool
  is_nack : Bool
  is_data_response : Bool
  command : Option Nat
  data_payload : List Nat
  error_message : Option String
  size : Option Nat
  monitor_id : Option Nat
deriving Repr, DecidableEq

/-- Byte at index i of a buffer (Python data[i]; out-of-range reads never
occur on the guarded paths, the default 0 is never observable). -/
def byteAt (data : List Nat) (i : Nat) : Nat := data.getD i 0

/-- Field defaults assigned at the top of the SicpResponse constructor. -/
def initResp : SicpRespState :=
  { valid := false, is_ack := false, is_nav := false, is_nack := false,
    is_data_response := false, command := none, data_payload := [],
    error_message := none, size := none, monitor_id := none }

/-- Response classifier, from SicpResponse.__init__ in response.py: buffers
shorter than 5 bytes are malformed; buffers of length at least 6 with byte 3
equal to the communication-control opcode 0x00 are control responses keyed on
byte 4 (0x06 ACK, 0x18 NAV, 0x15 NACK, otherwise unknown); every remaining
buffer of length at least 5 is a data response with command byte 3 and
payload bytes 4 through the next-to-last byte. -/
def SicpResponse (data : List Nat) : SicpRespState :=
  if data.length < 5 then
    { initResp with error_message := some "Response too short" }
  else
    let base := { initResp with size := some (byteAt data 0),
                                monitor_id := some (byteAt data 1) }
    if 6 ≤ data.length ∧ byteAt data 3 = CMD_COMMUNICATION_CONTROL then
      let response_code := byteAt data 4
      if response_code = RESPONSE_ACK then
        { base with command := some CMD_COMMUNICATION_CONTROL,
                    is_ack := true, valid := true }
      else if response_code = RESPONSE_NAV then
        { base with command := some CMD_COMMUNICATION_CONTROL,
                    is_nav := true, valid := true,
                    error_message := some "Command not supported/available (NAV)" }
      else if response_code = RESPONSE_NACK then
        { base with command := some CMD_COMMUNICATION_CONTROL,
                    is_nack := true, valid := true,
                    error_message := some "Checksum or format error (NACK)" }
      else
        { base with command := some CMD_COMMUNICATION_CONTROL,
                    error_message := some "Unknown response code" }
    else
      { base with is_data_response := true, valid := true,
                  command := some (byteAt data 3),
                  data_payload := (data.drop 4).dropLast }

/-- Command-echo stripping applied to a data payload, from
SICPIPMonitor.send_message (lib/sicppy/sicppy/ip_monitor.py, lines 77-82) and
identically in every get method of the synchronous protocol.py: drop the
first payload byte when it equals the sent command and the payload has more
than one byte. -/
def clean_payload (command : Nat) (payload : List Nat) : List Nat :=
  if payload ≠ [] ∧ payload.headD 0 = command ∧ 1 < payload.length then
    payload.drop 1
  else
    payload

/-- Python banker's rounding of kelvin/100.0 for an integer kelvin.  The
source computes int(round(kelvin_int / 100.0)) on a float; for every integer
kelvin the clamped result below agrees with exact rational round-half-to-even
(ties kelvin % 100 == 50 are exactly representable doubles and IEEE division
is exact on them; non-ties are at rational distance at least 1/100 from a
boundary, far above the rounding error for every magnitude that can influence
the [20,100] clamp). -/
def pyRound100 (k : Int) : Int :=
  let d := k / 100
  let r := k % 100
  if r < 50 then d
  else if 50 < r then d + 1
  else if d % 2 = 0 then d else d + 1

/-- Kelvin-to-step conversion, from _coerce_kelvin_to_step_value in
lib/sicppy/sicppy/protocol.py: step = round(kelvin/100) clamped to [20,100],
resolved kelvin = step*100. -/
def coerce_kelvin_to_step_value (kelvin : Int) : Int × Int :=
  let step := pyRound100 kelvin
  let step2 := max 20 (min 100 step)
  (step2, step2 * 100)

/-- Predicate keeping a temperature reading: true unless the byte is the
0xFF sensor-not-populated sentinel. -/
def not_sentinel (v : Nat) : Bool := v ≠ 0xFF

/-- Temperature payload decoding, from SICPProtocol.get_temperature in
lib/sicppy/sicppy/protocol.py: an empty payload raises; otherwise every 0xFF
sentinel byte is filtered out and None is returned when no readings remain. -/
def lib_get_temperature_decode (payload : List Nat) : Except String (Option (List Nat)) :=
  if payload = [] then .error "Unable to read temperature sensors"
  else if payload.filter not_sentinel = [] then .ok none
  else .ok (some (payload.filter not_sentinel))

/-- Temperature decoding of the synchronous variant, from
SICPProtocol.get_temperature in src/sicppy/sicppy/protocol.py: a leading
command echo 0x2F is stripped, then 0xFF sentinels are filtered and None is
returned when nothing remains. -/
def src_get_temperature_decode (payload : List Nat) : Option (List Nat) :=
  let payload := if payload ≠ [] ∧ payload.headD 0 = CMD_TEMPERATURE_GET
    then payload.drop 1 else payload
  if payload = [] then none
  else if payload.filter not_sentinel = [] then none
  else some (payload.filter not_sentinel)

/-- C2.  The response classifier is total over arbitrary byte buffers: every
buffer shorter than 5 bytes is malformed (no ack/nav/nack/data flag set and
no payload); every buffer of length at least 6 whose byte 3 is 0x00 is a
control response with no data payload whose ack, nav and nack flags hold
exactly when byte 4 is 0x06, 0x18 and 0x15 respectively (all three false is
the unknown control case); every remaining buffer of length at least 5 is a
data response echoing command byte 3 with payload bytes 4 through len-2. -/
theorem sicp_response_classifier_total (data : List Nat) :
    (data.length < 5 →
      (SicpResponse data).is_ack = false ∧ (SicpResponse data).is_nav = false
        ∧ (SicpResponse data).is_nack = false
        ∧ (SicpResponse data).is_data_response = false
        ∧ (SicpResponse data).data_payload = [])
    ∧ (6 ≤ data.length → byteAt data 3 = 0x00 →
      (SicpResponse data).is_data_response = false
        ∧ (SicpResponse data).data_payload = []
        ∧ ((SicpResponse data).is_ack = true ↔ byteAt data 4 = 0x06)
        ∧ ((SicpResponse data).is_nav = true ↔ byteAt data 4 = 0x18)
        ∧ ((SicpResponse data).is_nack = true ↔ byteAt data 4 = 0x15))
    ∧ (5 ≤ data.length → (data.length = 5 ∨ byteAt data 3 ≠ 0x00) →
      (SicpResponse data).is_data_response = true
        ∧ (SicpResponse data).command = some (byteAt data 3)
        ∧ (SicpResponse data).data_payload = (data.drop 4).dropLast) := by
  refine ⟨?_, ?_, ?_⟩
  · intro h
    simp [SicpResponse, h, initResp]
  · intro h6 h3
    have h5 : ¬ data.length < 5 := by omega
    by_cases ha : byteAt data 4 = 0x06
    · simp [SicpResponse, h5, h6, h3, ha, initResp,
        CMD_COMMUNICATION_CONTROL, RESPONSE_ACK, RESPONSE_NAV, RESPONSE_NACK]
    · by_cases hn : byteAt data 4 = 0x18
      · simp [SicpResponse, h5, h6, h3, ha, hn, initResp,
          CMD_COMMUNICATION_CONTROL, RESPONSE_ACK, RESPONSE_NAV, RESPONSE_NACK]
      · by_cases hk : byteAt data 4 = 0x15
        · simp [SicpResponse, h5, h6, h3, ha, hn, hk, initResp,
            CMD_COMMUNICATION_CONTROL, RESPONSE_ACK, RESPONSE_NAV, RESPONSE_NACK]
        · simp [SicpResponse, h5, h6, h3, ha, hn, hk, initResp,
            CMD_COMMUNICATION_CONTROL, RESPONSE_ACK, RESPONSE_NAV, RESPONSE_NACK]
  · intro h5 hcase
    have hlt : ¬ data.length < 5 := by omega
    have hcontrol : ¬ (6 ≤ data.length ∧ byteAt data 3 = CMD_COMMUNICATION_CONTROL) := by
      rcases hcase with heq | hne
      · intro hcon; omega
      · intro hcon; exact hne hcon.2
    simp [SicpResponse, hlt, hcontrol, initResp]

/-- Witness for C2: the three branches of the classifier theorem evaluated at
a 3-byte buffer, a 6-byte ACK control buffer, and a 6-byte data buffer. -/
theorem sicp_response_classifier_total_witness :
    (([1, 2, 3] : List Nat).length < 5
      ∧ ((SicpResponse [1, 2, 3]).is_ack = false ∧ (SicpResponse [1, 2, 3]).is_nav = false
        ∧ (SicpResponse [1, 2, 3]).is_nack = false
        ∧ (SicpResponse [1, 2, 3]).is_data_response = false
        ∧ (SicpResponse [1, 2, 3]).data_payload = []))
    ∧ (6 ≤ ([6, 1, 1, 0, 6, 2] : List Nat).length
      ∧ byteAt [6, 1, 1, 0, 6, 2] 3 = 0x00
      ∧ ((SicpResponse [6, 1, 1, 0, 6, 2]).is_data_response = false
        ∧ (SicpResponse [6, 1, 1, 0, 6, 2]).data_payload = []
        ∧ ((SicpResponse [6, 1, 1, 0, 6, 2]).is_ack = true
            ↔ byteAt [6, 1, 1, 0, 6, 2] 4 = 0x06)
        ∧ ((SicpResponse [6, 1, 1, 0, 6, 2]).is_nav = true
            ↔ byteAt [6, 1, 1, 0, 6, 2] 4 = 0x18)
        ∧ ((SicpResponse [6, 1, 1, 0, 6, 2]).is_nack = true
            ↔ byteAt [6, 1, 1, 0, 6, 2] 4 = 0x15)))
    ∧ (5 ≤ ([6, 1, 1, 25, 7, 8] : List Nat).length
      ∧ (([6, 1, 1, 25, 7, 8] : List Nat).length = 5
          ∨ byteAt [6, 1, 1, 25, 7, 8] 3 ≠ 0x00)
      ∧ ((SicpResponse [6, 1, 1, 25, 7, 8]).is_data_response = true
        ∧ (SicpResponse [6, 1, 1, 25, 7, 8]).command
            = some (byteAt [6, 1, 1, 25, 7, 8] 3)
        ∧ (SicpResponse [6, 1, 1, 25, 7, 8]).data_payload
            = (([6, 1, 1, 25, 7, 8] : List Nat).drop 4).dropLast)) :=
  ⟨⟨by decide, (sicp_response_classifier_total [1, 2, 3]).1 (by decide)⟩,
    ⟨by decide, by decide,
      (sicp_response_classifier_total [6, 1, 1, 0, 6, 2]).2.1 (by decide) (by decide)⟩,
    ⟨by decide, by decide,
      (sicp_response_classifier_total [6, 1, 1, 25, 7, 8]).2.2 (by decide) (by decide)⟩⟩

/-- C4 counterexample: the cleaning rule is not idempotent.  When the sent
command was 0x15 (serial get) and the data payload starts with two 0x15
bytes, a second application of the rule strips one more byte than the
first. -/
theorem clean_payload_second_strip :
    ¬ (clean_payload 0x15 (clean_payload 0x15 [0x15, 0x15, 0x41])
        = clean_payload 0x15 [0x15, 0x15, 0x41]) := by
  decide

/-- C4 amended.  The cleaning rule is exactly as claimed: when the first
payload byte equals the sent command and the payload has more than one byte
the cleaned payload is payload[1:], otherwise the payload is unchanged.  A
second application removes no further bytes except in the one family of
payloads whose first two bytes both equal the sent command and which have at
least three bytes; there a second application strips one more byte (the code
applies the rule only once per response, so no code path reapplies it). -/
theorem clean_payload_rule_and_second_application (command : Nat) (payload : List Nat) :
    (clean_payload command payload =
      if payload.headD 0 = command ∧ 1 < payload.length then payload.drop 1 else payload)
    ∧ (clean_payload command (clean_payload command payload) = clean_payload command payload
        ↔ ¬ (payload.headD 0 = command ∧ payload.getD 1 0 = command
              ∧ 2 < payload.length)) := by
  constructor
  · rcases payload with _ | ⟨a, t⟩
    · simp [clean_payload]
    · rcases t with _ | ⟨b, u⟩
      · simp [clean_payload]
      · by_cases hac : a = command <;>
          simp [clean_payload, hac, Nat.succ_lt_succ_iff]
  · rcases payload with _ | ⟨a, t⟩
    · simp [clean_payload]
    · rcases t with _ | ⟨b, u⟩
      · simp [clean_payload]
      · rcases u with _ | ⟨c, v⟩
        · by_cases hac : a = command <;> by_cases hbc : b = command <;>
            simp [clean_payload, hac, hbc]
        · by_cases hac : a = command <;> by_cases hbc : b = command <;>
            simp [clean_payload, hac, hbc, Nat.succ_lt_succ_iff]

/-- C5.  The set-path Kelvin conversion always produces a step in [20,100]
whose resolved Kelvin is step*100, the step being round(kelvin/100) (Python
banker's rounding) clamped to [20,100]; in particular 6530 resolves to step
65 and 6500 K, while 1850 resolves to step 20 and 2000 K because 18.5 rounds
half-to-even down to 18, below the floor of 20. -/
theorem coerce_kelvin_step_round_trip :
    (∀ k : Int, 20 ≤ (coerce_kelvin_to_step_value k).1
      ∧ (coerce_kelvin_to_step_value k).1 ≤ 100
      ∧ (coerce_kelvin_to_step_value k).2 = (coerce_kelvin_to_step_value k).1 * 100
      ∧ (coerce_kelvin_to_step_value k).1 = max 20 (min 100 (pyRound100 k)))
    ∧ coerce_kelvin_to_step_value 6530 = (65, 6500)
    ∧ coerce_kelvin_to_step_value 1850 = (20, 2000) := by
  refine ⟨fun k => ⟨le_max_left _ _, ?_, rfl, rfl⟩, by decide, by decide⟩
  exact max_le (by norm_num) (min_le_left _ _)

/-- C6.  Temperature decoding filters out every 0xFF sentinel byte, keeping
the remaining readings in order, and yields None rather than an empty list
when no valid readings remain; payload [22, 0xFF, 19, 0xFF] decodes to
[22, 19] and [0xFF, 0xFF] decodes to None, in both protocol variants. -/
theorem temperature_sentinel_filtering :
    (∀ p l, lib_get_temperature_decode p = .ok (some l) →
        l = p.filter not_sentinel ∧ 0xFF ∉ l ∧ l ≠ [])
    ∧ (∀ p, p ≠ [] →
        (lib_get_temperature_decode p = .ok none ↔ ∀ b ∈ p, b = 0xFF))
    ∧ lib_get_temperature_decode [22, 0xFF, 19, 0xFF] = .ok (some [22, 19])
    ∧ lib_get_temperature_decode [0xFF, 0xFF] = .ok none
    ∧ src_get_temperature_decode [22, 0xFF, 19, 0xFF] = some [22, 19]
    ∧ src_get_temperature_decode [0xFF, 0xFF] = none := by
  refine ⟨?_, ?_, by rfl, by rfl, by decide, by decide⟩
  · intro p l h
    unfold lib_get_temperature_decode at h
    split_ifs at h with h1 h2
    · exact absurd (Except.ok.inj h) (by simp)
    · have hl : p.filter not_sentinel = l := Option.some.inj (Except.ok.inj h)
      subst hl
      refine ⟨rfl, ?_, h2⟩
      intro hmem
      rw [List.mem_filter] at hmem
      simp [not_sentinel] at hmem
  · intro p hp
    unfold lib_get_temperature_decode
    rw [if_neg hp]
    by_cases h2 : p.filter not_sentinel = []
    · rw [if_pos h2]
      constructor
      · intro _ b hb
        have := List.filter_eq_nil_iff.mp h2 b hb
        simpa [not_sentinel] using this
      · intro _; rfl
    · rw [if_neg h2]
      constructor
      · intro hcontra
        exact absurd hcontra (by simp)
      · intro hall
        exfalso
        apply h2
        rw [List.filter_eq_nil_iff]
        intro b hb
        simp [not_sentinel, hall b hb]

/-- Witness for C6: the two universally quantified parts applied to the
concrete payloads from the claim. -/
theorem temperature_sentinel_filtering_witness :
    (lib_get_temperature_decode [22, 0xFF, 19, 0xFF] = .ok (some [22, 19])
      ∧ ([22, 19] : List Nat) = [22, 0xFF, 19, 0xFF].filter not_sentinel
      ∧ (0xFF : Nat) ∉ ([22, 19] : List Nat) ∧ ([22, 19] : List Nat) ≠ [])
    ∧ (([0xFF, 0xFF] : List Nat) ≠ []
      ∧ (lib_get_temperature_decode [0xFF, 0xFF] = .ok none
          ↔ ∀ b ∈ ([0xFF, 0xFF] : List Nat), b = 0xFF)) :=
  ⟨⟨by rfl, temperature_sentinel_filtering.1 [22, 0xFF, 19, 0xFF] [22, 19] (by rfl)⟩,
    ⟨by decide, temperature_sentinel_filtering.2.1 [0xFF, 0xFF] (by decide)⟩⟩

/-- Python truthiness of a value that is either None or a bool, as produced by
the expression response and response.is_ack. -/
def pyTruthy : Option Bool → Bool
  | none => false
  | some b => b

/-- Exceptions the engine and transport can raise (errors.py plus ValueError
and RuntimeError). -/
inductive PyErr where
  | valueError (msg : String)
  | network (msg : String)
  | protocolError (msg : String)
  | notSupported
  | checksumError
  | runtimeError (msg : String)
deriving Repr, DecidableEq

/-- Value of the Python expression response and response.is_ack: None when the
transport returned None, otherwise the ack flag. -/
def send_result_is_ack (r : Option SicpRespState) : Option Bool :=
  r.map (fun x => x.is_ack)

/-- Common body of every set-shape method of the asyncio SICPProtocol
(lib/sicppy/sicppy/protocol.py): send the message with the default
expect_data=False and return response and response.is_ack; transport
exceptions propagate and the stored monitor_id (first component) is never
modified. -/
def lib_set_shape (send : List Nat → Except PyErr (Option SicpRespState))
    (monitor_id : Nat) (message : List Nat) : Nat × Except PyErr (Option Bool) :=
  match send message with
  | .error e => (monitor_id, .error e)
  | .ok r => (monitor_id, .ok (send_result_is_ack r))

/-- SICPProtocol.set_power of the asyncio variant. -/
def lib_set_power (send : List Nat → Except PyErr (Option SicpRespState))
    (monitor_id : Nat) (power_on : Bool) : Nat × Except PyErr (Option Bool) :=
  lib_set_shape send monitor_id
    (construct_message monitor_id CMD_POWER_STATE_SET
      [if power_on then POWER_ON else POWER_OFF])

/-- SICPProtocol.set_backlight of the asyncio variant. -/
def lib_set_backlight (send : List Nat → Except PyErr (Option SicpRespState))
    (monitor_id : Nat) (backlight_on : Bool) : Nat × Except PyErr (Option Bool) :=
  lib_set_shape send monitor_id
    (construct_message monitor_id CMD_BACKLIGHT_SET
      [if backlight_on then 0x00 else 0x01])

/-- SICPProtocol.set_group_id of the asyncio variant, with its range check. -/
def lib_set_group_id (send : List Nat → Except PyErr (Option SicpRespState))
    (monitor_id group_value : Nat) : Nat × Except PyErr (Option Bool) :=
  if ¬ ((1 ≤ group_value ∧ group_value ≤ 0xFE) ∨ group_value = 0xFF) then
    (monitor_id, .error (.valueError "Group ID must be 1-254 or 0xFF for off"))
  else
    lib_set_shape send monitor_id
      (construct_message monitor_id CMD_GROUP_ID_SET [group_value])

/-- Whether an explicitly supplied volume level fails the 0..100 range check
of SICPProtocol.set_volume; an omitted (None) level is never rejected. -/
def volume_out_of_range (level : Option Int) : Bool :=
  match level with
  | none => false
  | some v => decide (v < 0) || decide (100 < v)

/-- Validation phase of SICPProtocol.set_volume (lib/sicppy/sicppy/protocol.py):
the ValueError is raised before build_volume_set_message is called, so on the
error path no message exists at all; on the success path the message is built
with the validated levels (None mapped to the 0xFF sentinel by the builder). -/
def lib_set_volume_message (monitor_id : Nat)
    (speaker_level audio_out_level : Option Int) : Except String (List Nat) :=
  if volume_out_of_range speaker_level then
    .error "Speaker volume must be between 0 and 100"
  else if volume_out_of_range audio_out_level then
    .error "Audio out volume must be between 0 and 100"
  else
    .ok (build_volume_set_message monitor_id
      (speaker_level.map Int.toNat) (audio_out_level.map Int.toNat))

/-- SICPProtocol.set_volume of the asyncio variant: validate, then dispatch
the built message through the set shape. -/
def lib_set_volume (send : List Nat → Except PyErr (Option SicpRespState))
    (monitor_id : Nat) (speaker_level audio_out_level : Option Int) :
    Nat × Except PyErr (Option Bool) :=
  match lib_set_volume_message monitor_id speaker_level audio_out_level with
  | .error m => (monitor_id, .error (.valueError m))
  | .ok message => lib_set_shape send monitor_id message

/-- SICPProtocol.set_monitor_id of the asyncio variant: validate the new id,
send the reassignment request, and only on a truthy ACK overwrite the stored
monitor_id (first component of the result) with the new id. -/
def lib_set_monitor_id (send : List Nat → Except PyErr (Option SicpRespState))
    (monitor_id new_monitor_id : Nat) : Nat × Except PyErr Bool :=
  if ¬ (1 ≤ new_monitor_id ∧ new_monitor_id ≤ 0xFF) then
    (monitor_id, .error (.valueError "Monitor ID must be between 1 and 255"))
  else
    match send (construct_message monitor_id CMD_MONITOR_ID_SET [new_monitor_id]) with
    | .error e => (monitor_id, .error e)
    | .ok r =>
      if pyTruthy (send_result_is_ack r) then (new_monitor_id, .ok true)
      else (monitor_id, .ok false)

/-- SICPProtocol.set_precise_color_temperature of the synchronous variant
(src/sicppy/sicppy/protocol.py): convert Kelvin to a step, send the set
color-temperature mode USER2 prerequisite, and only if that call reports a
truthy result send the fine-adjustment message; the oracle send returns the
parsed response or None, and the function returns the list of messages sent
in order together with the Python result (False, None, or the final ack). -/
def src_set_precise_color_temperature (send : List Nat → Option SicpRespState)
    (monitor_id : Nat) (kelvin : Int) : List (List Nat) × Option Bool :=
  let step_value := (coerce_kelvin_to_step_value kelvin).1
  let m1 := build_color_temperature_set_message monitor_id ColorTemperatureMode_USER2
  let r1 : Option Bool := (send m1).map (fun r => r.is_ack)
  if pyTruthy r1 then
    let m2 := build_color_temperature_fine_set_message monitor_id step_value.toNat
    ([m1, m2], (send m2).map (fun r => r.is_ack))
  else
    ([m1], some false)

/-- SICPProtocol.set_precise_color_temperature of the asyncio variant
(lib/sicppy/sicppy/protocol.py, lines 286-303) as the code actually executes:
the call self.set_color_temperature_mode(ColorTemperatureMode.USER2) lacks an
await, so it only creates a coroutine object, which is truthy; the guard
cannot take its failure branch, the USER2 prerequisite request is never sent,
and the fine-adjustment message is sent unconditionally. -/
def lib_async_set_precise_color_temperature (send : List Nat → Option SicpRespState)
    (monitor_id : Nat) (kelvin : Int) : List (List Nat) × Option Bool :=
  let step_value := (coerce_kelvin_to_step_value kelvin).1
  let m2 := construct_message monitor_id CMD_COLOR_TEMPERATURE_FINE_SET [step_value.toNat]
  ([m2], (send m2).map (fun r => r.is_ack))

/-- C3 (code bug).  With a display that never acknowledges (send returns
None), the synchronous variant sends only the set color-temperature mode
USER2 prerequisite and returns False, exactly as the claim states; the
asyncio variant, whose missing await makes the prerequisite guard
unfailable, sends the fine-adjustment message for command 0x11 anyway, never
sends the USER2 prerequisite at all, and returns the falsy None instead of
False. -/
theorem set_precise_color_temperature_prerequisite_bug :
    (src_set_precise_color_temperature (fun _ => none) 1 6500
        = ([build_color_temperature_set_message 1 ColorTemperatureMode_USER2], some false))
    ∧ (lib_async_set_precise_color_temperature (fun _ => none) 1 6500
        = ([construct_message 1 CMD_COLOR_TEMPERATURE_FINE_SET [65]], none))
    ∧ ((lib_async_set_precise_color_temperature (fun _ => none) 1 6500).1.contains
        (build_color_temperature_set_message 1 ColorTemperatureMode_USER2) = false) := by
  refine ⟨by decide, by decide, by decide⟩

/-- C7.  An explicit speaker or audio-out level outside [0,100] makes
set_volume fail validation before any message is built (no clamping); levels
that pass validation are encoded by build_volume_set_message, which writes
the 0xFF no-change sentinel at the speaker byte (index 4) or audio-out byte
(index 5) whenever the corresponding level was omitted. -/
theorem set_volume_validation_and_sentinel (monitor_id : Nat) :
    (∀ v ao, (v < 0 ∨ 100 < v) →
      lib_set_volume_message monitor_id (some v) ao
        = .error "Speaker volume must be between 0 and 100")
    ∧ (∀ sp v, volume_out_of_range sp = false → (v < 0 ∨ 100 < v) →
      lib_set_volume_message monitor_id sp (some v)
        = .error "Audio out volume must be between 0 and 100")
    ∧ (∀ sp ao, volume_out_of_range sp = false → volume_out_of_range ao = false →
      lib_set_volume_message monitor_id sp ao
        = .ok (build_volume_set_message monitor_id
            (sp.map Int.toNat) (ao.map Int.toNat)))
    ∧ (∀ ao, (build_volume_set_message monitor_id none ao).getD 4 0 = 0xFF)
    ∧ (∀ sp, (build_volume_set_message monitor_id sp none).getD 5 0 = 0xFF) := by
  refine ⟨?_, ?_, ?_, ?_, ?_⟩
  · intro v ao h
    have hv : volume_out_of_range (some v) = true := by
      rcases h with h | h <;> simp [volume_out_of_range, h]
    unfold lib_set_volume_message
    rw [if_pos hv]
  · intro sp v hsp h
    have hv : volume_out_of_range (some v) = true := by
      rcases h with h | h <;> simp [volume_out_of_range, h]
    unfold lib_set_volume_message
    rw [if_neg (by simp [hsp]), if_pos hv]
  · intro sp ao hsp hao
    unfold lib_set_volume_message
    rw [if_neg (by simp [hsp]), if_neg (by simp [hao])]
  · intro ao; rfl
  · intro sp; rfl

/-- Witness for C7: set_volume with speaker level 150 fails validation with
no message, valid levels build the wire message, and omitted levels encode
as 0xFF. -/
theorem set_volume_validation_and_sentinel_witness :
    (((150 : Int) < 0 ∨ (100 : Int) < 150)
      ∧ lib_set_volume_message 1 (some 150) none
          = .error "Speaker volume must be between 0 and 100")
    ∧ (volume_out_of_range none = false ∧ ((200 : Int) < 0 ∨ (100 : Int) < 200)
      ∧ lib_set_volume_message 1 none (some 200)
          = .error "Audio out volume must be between 0 and 100")
    ∧ (volume_out_of_range (some 30) = false ∧ volume_out_of_range none = false
      ∧ lib_set_volume_message 1 (some 30) none
          = .ok (build_volume_set_message 1 ((some (30 : Int)).map Int.toNat)
              ((none : Option Int).map Int.toNat))) :=
  ⟨⟨Or.inr (by norm_num),
      (set_volume_validation_and_sentinel 1).1 150 none (Or.inr (by norm_num))⟩,
    ⟨by decide, Or.inr (by norm_num),
      (set_volume_validation_and_sentinel 1).2.1 none 200 (by decide) (Or.inr (by norm_num))⟩,
    ⟨by decide, by decide,
      (set_volume_validation_and_sentinel 1).2.2.1 (some 30) none (by decide) (by decide)⟩⟩

/-- C8.  For any transport behavior and any new monitor id in [1,255]: when
the reassignment request is answered with a truthy ACK the stored monitor_id
becomes the new id and the call returns True; when the response is absent or
not an ACK the stored monitor_id is unchanged and the call returns False;
when the transport raises, the exception propagates with the stored
monitor_id unchanged.  Every other embedded engine operation (set_power,
set_backlight, set_group_id, set_volume, and any operation following the
common set shape) leaves the stored monitor_id unchanged; set_monitor_id is
the only operation whose success path rewrites it. -/
theorem set_monitor_id_mutation_atomicity
    (send : List Nat → Except PyErr (Option SicpRespState))
    (monitor_id new_monitor_id : Nat) :
    (1 ≤ new_monitor_id → new_monitor_id ≤ 0xFF →
      ((∀ r, send (construct_message monitor_id CMD_MONITOR_ID_SET [new_monitor_id]) = .ok r →
          lib_set_monitor_id send monitor_id new_monitor_id
            = (if pyTruthy (send_result_is_ack r) then (new_monitor_id, .ok true)
               else (monitor_id, .ok false)))
        ∧ (∀ e, send (construct_message monitor_id CMD_MONITOR_ID_SET [new_monitor_id])
              = .error e →
          lib_set_monitor_id send monitor_id new_monitor_id = (monitor_id, .error e))))
    ∧ (∀ pw, (lib_set_power send monitor_id pw).1 = monitor_id)
    ∧ (∀ bl, (lib_set_backlight send monitor_id bl).1 = monitor_id)
    ∧ (∀ g, (lib_set_group_id send monitor_id g).1 = monitor_id)
    ∧ (∀ sp ao, (lib_set_volume send monitor_id sp ao).1 = monitor_id)
    ∧ (∀ message, (lib_set_shape send monitor_id message).1 = monitor_id) := by
  have hshape : ∀ message, (lib_set_shape send monitor_id message).1 = monitor_id := by
    intro message
    unfold lib_set_shape
    cases send message <;> rfl
  refine ⟨?_, fun pw => hshape _, fun bl => hshape _, ?_, ?_, hshape⟩
  · intro h1 h255
    have hrange : ¬ ¬ (1 ≤ new_monitor_id ∧ new_monitor_id ≤ 0xFF) := by
      simp [h1, h255]
    constructor
    · intro r hr
      unfold lib_set_monitor_id
      rw [if_neg hrange, hr]
    · intro e he
      unfold lib_set_monitor_id
      rw [if_neg hrange, he]
  · intro g
    unfold lib_set_group_id
    by_cases hg : ¬ ((1 ≤ g ∧ g ≤ 0xFE) ∨ g = 0xFF)
    · rw [if_pos hg]
    · rw [if_neg hg]
      exact hshape _
  · intro sp ao
    unfold lib_set_volume
    cases lib_set_volume_message monitor_id sp ao with
    | error m => rfl
    | ok message => exact hshape _

/-- Witness for C8: reassigning monitor id 1 to 7 with a transport whose
reply parses as an ACK updates the stored id and returns True; with a
transport that returns no response the stored id stays 1 and the call
returns False; with a transport that raises a network error the error
propagates with the stored id unchanged. -/
theorem set_monitor_id_mutation_atomicity_witness :
    ((1 : Nat) ≤ 7 ∧ (7 : Nat) ≤ 0xFF)
    ∧ lib_set_monitor_id (fun _ => .ok (some (SicpResponse [6, 1, 1, 0, 6, 2]))) 1 7
        = (7, .ok true)
    ∧ lib_set_monitor_id (fun _ => .ok none) 1 7 = (1, .ok false)
    ∧ lib_set_monitor_id (fun _ => .error (.network "Communication timed out")) 1 7
        = (1, .error (.network "Communication timed out")) := by
  refine ⟨⟨by decide, by decide⟩, ?_, ?_, ?_⟩
  · have h := ((set_monitor_id_mutation_atomicity
        (fun _ => .ok (some (SicpResponse [6, 1, 1, 0, 6, 2]))) 1 7).1
        (by decide) (by decide)).1 (some (SicpResponse [6, 1, 1, 0, 6, 2])) rfl
    have hb : pyTruthy (send_result_is_ack (some (SicpResponse [6, 1, 1, 0, 6, 2]))) = true := by
      decide
    rw [h, if_pos hb]
  · have h := ((set_monitor_id_mutation_atomicity
        (fun _ => .ok none) 1 7).1 (by decide) (by decide)).1 none rfl
    have hb : ¬ pyTruthy (send_result_is_ack none) = true := by decide
    rw [h, if_neg hb]
  · exact ((set_monitor_id_mutation_atomicity
        (fun _ => .error (.network "Communication timed out")) 1 7).1
        (by decide) (by decide)).2 (.network "Communication timed out") rfl

/-- Asyncio transport SICPIPMonitor.send_message (lib/sicppy/sicppy/ip_monitor.py):
connect_ok models whether the connect/write phase succeeds (otherwise a
NetworkError is raised) and raw models the bytes a read would return.  With
expect_data false the method returns None immediately after the write,
reading nothing.  With expect_data true an empty read raises ProtocolError;
NAV and NACK classifications raise their dedicated errors; an invalid
response raises RuntimeError; otherwise the command echo is stripped from the
data payload (using byte 3 of the request) and the response is returned. -/
def lib_ip_send_message (connect_ok : Bool) (raw : List Nat) (message : List Nat)
    (expect_data : Bool) : Except PyErr (Option SicpRespState) :=
  if ¬ connect_ok then .error (.network "Communication timed out")
  else if ¬ expect_data then .ok none
  else if raw = [] then .error (.protocolError "No response received from monitor")
  else
    let response := SicpResponse raw
    if response.is_nav then .error .notSupported
    else if response.is_nack then .error .checksumError
    else if ¬ response.valid then .error (.runtimeError "Invalid response received from monitor")
    else
      let payload := response.data_payload
      let payload2 :=
        match (if 3 < message.length then some (byteAt message 3) else none) with
        | some c => clean_payload c payload
        | none => payload
      .ok (some { response with data_payload := payload2 })

/-- SICPProtocol.set_power dispatched through the asyncio IP transport, which
is called with the default expect_data=False. -/
def lib_ip_set_power (connect_ok : Bool) (raw : List Nat) (monitor_id : Nat)
    (power_on : Bool) : Nat × Except PyErr (Option Bool) :=
  lib_set_power (fun message => lib_ip_send_message connect_ok raw message false)
    monitor_id power_on

/-- C10.  Through the asyncio IP transport every set-shape dispatch uses
expect_data=False, for which the transport returns None after a successful
write no matter what bytes the display would have answered; hence the
operation result is the falsy None (never True) on success and a network
error otherwise, as shown for the generic set shape and for set_power. -/
theorem ip_transport_set_shape_never_true (connect_ok : Bool) (raw : List Nat)
    (monitor_id : Nat) (power_on : Bool) :
    (∀ message, lib_ip_send_message connect_ok raw message false
        = if connect_ok then .ok none else .error (.network "Communication timed out"))
    ∧ (∀ message,
        lib_set_shape (fun m => lib_ip_send_message connect_ok raw m false)
            monitor_id message
          = (monitor_id, if connect_ok then .ok none
              else .error (.network "Communication timed out")))
    ∧ lib_ip_set_power connect_ok raw monitor_id power_on
        = (monitor_id, if connect_ok then .ok none
            else .error (.network "Communication timed out")) := by
  have htrans : ∀ message, lib_ip_send_message connect_ok raw message false
      = if connect_ok then .ok none else .error (.network "Communication timed out") := by
    intro message
    cases connect_ok <;> simp [lib_ip_send_message]
  have hshape : ∀ message,
      lib_set_shape (fun m => lib_ip_send_message connect_ok raw m false)
          monitor_id message
        = (monitor_id, if connect_ok then .ok none
            else .error (.network "Communication timed out")) := by
    intro message
    have h := htrans message
    simp only [lib_set_shape]
    rw [h]
    cases connect_ok <;> simp [send_result_is_ack]
  exact ⟨htrans, hshape, hshape _⟩

/-- Printable-ASCII test used by the value formatter (32 <= byte <= 126). -/
def printable (b : Nat) : Bool := decide (32 ≤ b) && decide (b ≤ 126)

/-- Characters of the printable-ASCII decoding of a byte list, mirroring
the generator expression chr(b) for b in value_bytes if 32 <= b <= 126. -/
def asciiChars (value_bytes : List Nat) : List Char :=
  (value_bytes.filter printable).map Char.ofNat

/-- Printable-ASCII decoding as a string (the ascii_text local). -/
def ascii_text (value_bytes : List Nat) : String := String.mk (asciiChars value_bytes)

/-- Uppercase hex digit for a value below 16. -/
def hexUpper (n : Nat) : Char :=
  if n < 10 then Char.ofNat (48 + n) else Char.ofNat (55 + n)

/-- Two-digit uppercase hex rendering of a byte, Python f-string 02X. -/
def byteHexUpper (b : Nat) : String :=
  String.mk [hexUpper (b / 16 % 16), hexUpper (b % 16)]

/-- Concatenated uppercase hex of all bytes (the raw_hex local). -/
def raw_hex (value_bytes : List Nat) : String :=
  String.join (value_bytes.map byteHexUpper)

/-- Python str.isdigit restricted to the printable-ASCII range: the decimal
digits 0-9. -/
def pyIsDigit (c : Char) : Bool := c.isDigit

/-- Membership in Python string.hexdigits (0-9, a-f, A-F). -/
def pyIsHexDigit (c : Char) : Bool :=
  c.isDigit || (decide (97 ≤ c.toNat) && decide (c.toNat ≤ 102))
    || (decide (65 ≤ c.toNat) && decide (c.toNat ≤ 70))

/-- Decimal value of a digit string, as int() computes it on digits (leading
zeros allowed). -/
def decimalValue (cs : List Char) : Nat :=
  cs.foldl (fun acc c => acc * 10 + (c.toNat - 48)) 0

/-- Dot-joined rendering of a 12-digit ASCII address: four 3-digit groups
each parsed as an integer and re-rendered without leading zeros. -/
def dotted_quad (acs : List Char) : String :=
  String.intercalate "." ([0, 3, 6, 9].map
    (fun i => toString (decimalValue ((acs.drop i).take 3))))

/-- Colon-joined uppercase hex pairs of 6 raw bytes. -/
def mac_from_bytes (value_bytes : List Nat) : String :=
  String.intercalate ":" (value_bytes.map byteHexUpper)

/-- Colon-joined uppercased 2-character groups of a 12-hex-digit ASCII
string. -/
def mac_from_ascii (acs : List Char) : String :=
  String.intercalate ":" ([0, 2, 4, 6, 8, 10].map
    (fun i => String.mk (((acs.drop i).take 2).map Char.toUpper)))

/-- IP-parameter value formatter, from _format_ip_parameter_value
(lib/sicppy/sicppy/protocol.py and identically src/sicppy/sicppy/protocol.py):
address-like codes 0x01-0x05 whose printable-ASCII decoding is exactly 12
digits render as a dotted quad; MAC-like codes 0x06-0x07 render 6 raw bytes
as colon-separated uppercase hex pairs, else 12 ASCII hex digits as
colon-split uppercased pairs; anything else falls back to the ASCII text if
non-empty, else the uppercase hex, else the placeholder.  Returns
(formatted, ascii_text, raw_hex) as the source does; no branch can produce
an empty formatted string, so the Python falsiness test on formatted
coincides with the None test modelled here. -/
def format_ip_parameter_value (parameter_code : Nat) (value_bytes : List Nat) :
    String × String × String :=
  let acs := asciiChars value_bytes
  let atext := ascii_text value_bytes
  let rhex := raw_hex value_bytes
  let formatted : Option String :=
    if (parameter_code = 0x01 ∨ parameter_code = 0x02 ∨ parameter_code = 0x03
        ∨ parameter_code = 0x04 ∨ parameter_code = 0x05)
        ∧ acs.length = 12 ∧ acs.all pyIsDigit = true then
      some (dotted_quad acs)
    else if parameter_code = 0x06 ∨ parameter_code = 0x07 then
      if value_bytes.length = 6 then some (mac_from_bytes value_bytes)
      else if acs.length = 12 ∧ acs.all pyIsHexDigit = true then
        some (mac_from_ascii acs)
      else none
    else none
  let final := match formatted with
    | some s => s
    | none => if atext ≠ "" then atext else if rhex ≠ "" then rhex else "(no data)"
  (final, atext, rhex)

/-- Byte values of an ASCII string, for writing concrete payloads. -/
def strBytes (s : String) : List Nat := s.data.map Char.toNat

/-- C9.  The IP-parameter formatter renders the five address-like codes with
a 12-digit printable-ASCII value as a dotted quad of the 3-digit groups, the
two MAC-like codes with 6 raw bytes as colon-separated uppercase hex pairs
and otherwise with 12 ASCII hex digits as colon-split uppercase pairs, and
anything not matching its expected shape as the ASCII text if non-empty,
else the uppercase hex, else the placeholder; concretely "192168001001" for
code 0x01 gives "192.168.1.1" and bytes AA BB CC 11 22 33 for code 0x06 give
"AA:BB:CC:11:22:33". -/
theorem ip_parameter_value_formatting :
    (∀ code bs,
      (code = 0x01 ∨ code = 0x02 ∨ code = 0x03 ∨ code = 0x04 ∨ code = 0x05) →
      (asciiChars bs).length = 12 → (asciiChars bs).all pyIsDigit = true →
      (format_ip_parameter_value code bs).1 = dotted_quad (asciiChars bs))
    ∧ (∀ code bs, (code = 0x06 ∨ code = 0x07) → bs.length = 6 →
      (format_ip_parameter_value code bs).1 = mac_from_bytes bs)
    ∧ (∀ code bs, (code = 0x06 ∨ code = 0x07) → bs.length ≠ 6 →
      (asciiChars bs).length = 12 → (asciiChars bs).all pyIsHexDigit = true →
      (format_ip_parameter_value code bs).1 = mac_from_ascii (asciiChars bs))
    ∧ (∀ code bs, ¬ (1 ≤ code ∧ code ≤ 7) →
      (format_ip_parameter_value code bs).1 =
        (if ascii_text bs ≠ "" then ascii_text bs
         else if raw_hex bs ≠ "" then raw_hex bs else "(no data)"))
    ∧ (∀ code bs,
      (code = 0x01 ∨ code = 0x02 ∨ code = 0x03 ∨ code = 0x04 ∨ code = 0x05) →
      ¬ ((asciiChars bs).length = 12 ∧ (asciiChars bs).all pyIsDigit = true) →
      (format_ip_parameter_value code bs).1 =
        (if ascii_text bs ≠ "" then ascii_text bs
         else if raw_hex bs ≠ "" then raw_hex bs else "(no data)"))
    ∧ (∀ code bs, (code = 0x06 ∨ code = 0x07) → bs.length ≠ 6 →
      ¬ ((asciiChars bs).length = 12 ∧ (asciiChars bs).all pyIsHexDigit = true) →
      (format_ip_parameter_value code bs).1 =
        (if ascii_text bs ≠ "" then ascii_text bs
         else if raw_hex bs ≠ "" then raw_hex bs else "(no data)"))
    ∧ (format_ip_parameter_value 0x01 (strBytes "192168001001")).1 = "192.168.1.1"
    ∧ (format_ip_parameter_value 0x06 [0xAA, 0xBB, 0xCC, 0x11, 0x22, 0x33]).1
        = "AA:BB:CC:11:22:33"
    ∧ (format_ip_parameter_value 0x07 (strBytes "aabbcc112233")).1 = "AA:BB:CC:11:22:33"
    ∧ (format_ip_parameter_value 0x01 (strBytes "hello")).1 = "hello"
    ∧ (format_ip_parameter_value 0x06 [0x01]).1 = "01"
    ∧ (format_ip_parameter_value 0x02 []).1 = "(no data)" := by
  refine ⟨?_, ?_, ?_, ?_, ?_, ?_,
    by decide, by decide, by decide, by decide, by decide, by decide⟩
  · intro code bs hc hl ha
    unfold format_ip_parameter_value
    dsimp only
    rw [if_pos ⟨hc, hl, ha⟩]
  · intro code bs hc hlen
    unfold format_ip_parameter_value
    dsimp only
    rw [if_neg (by rcases hc with rfl | rfl <;> simp), if_pos hc, if_pos hlen]
  · intro code bs hc hlen h12 hhex
    unfold format_ip_parameter_value
    dsimp only
    rw [if_neg (by rcases hc with rfl | rfl <;> simp), if_pos hc, if_neg hlen,
      if_pos ⟨h12, hhex⟩]
  · intro code bs hc
    unfold format_ip_parameter_value
    dsimp only
    rw [if_neg fun h => hc (by rcases h.1 with rfl | rfl | rfl | rfl | rfl <;> omega),
      if_neg fun h => hc (by rcases h with rfl | rfl <;> omega)]
  · intro code bs hc hshape
    unfold format_ip_parameter_value
    dsimp only
    rw [if_neg fun h => hshape ⟨h.2.1, h.2.2⟩,
      if_neg (by rcases hc with rfl | rfl | rfl | rfl | rfl <;> simp)]
  · intro code bs hc hlen hshape
    unfold format_ip_parameter_value
    dsimp only
    rw [if_neg (by rcases hc with rfl | rfl <;> simp), if_pos hc, if_neg hlen,
      if_neg hshape]

/-- Witness for C9: all six universally quantified branch rules applied to
concrete inputs, one per branch: a dotted quad, a raw-byte MAC, an
ASCII-hex MAC, and the fallback for an out-of-range code, an address-like
code with a non-digit value, and a MAC-like code with a 1-byte value. -/
theorem ip_parameter_value_formatting_witness :
    (((0x01 : Nat) = 0x01 ∨ (0x01 : Nat) = 0x02 ∨ (0x01 : Nat) = 0x03
        ∨ (0x01 : Nat) = 0x04 ∨ (0x01 : Nat) = 0x05)
      ∧ (asciiChars (strBytes "192168001001")).length = 12
      ∧ (asciiChars (strBytes "192168001001")).all pyIsDigit = true
      ∧ (format_ip_parameter_value 0x01 (strBytes "192168001001")).1
          = dotted_quad (asciiChars (strBytes "192168001001")))
    ∧ (((0x06 : Nat) = 0x06 ∨ (0x06 : Nat) = 0x07)
      ∧ ([0xAA, 0xBB, 0xCC, 0x11, 0x22, 0x33] : List Nat).length = 6
      ∧ (format_ip_parameter_value 0x06 [0xAA, 0xBB, 0xCC, 0x11, 0x22, 0x33]).1
          = mac_from_bytes [0xAA, 0xBB, 0xCC, 0x11, 0x22, 0x33])
    ∧ (((0x07 : Nat) = 0x06 ∨ (0x07 : Nat) = 0x07)
      ∧ (strBytes "aabbcc112233").length ≠ 6
      ∧ (asciiChars (strBytes "aabbcc112233")).length = 12
      ∧ (asciiChars (strBytes "aabbcc112233")).all pyIsHexDigit = true
      ∧ (format_ip_parameter_value 0x07 (strBytes "aabbcc112233")).1
          = mac_from_ascii (asciiChars (strBytes "aabbcc112233")))
    ∧ (¬ (1 ≤ (0x20 : Nat) ∧ (0x20 : Nat) ≤ 7)
      ∧ (format_ip_parameter_value 0x20 (strBytes "hello")).1
          = (if ascii_text (strBytes "hello") ≠ "" then ascii_text (strBytes "hello")
             else if raw_hex (strBytes "hello") ≠ "" then raw_hex (strBytes "hello")
             else "(no data)"))
    ∧ (((0x01 : Nat) = 0x01 ∨ (0x01 : Nat) = 0x02 ∨ (0x01 : Nat) = 0x03
        ∨ (0x01 : Nat) = 0x04 ∨ (0x01 : Nat) = 0x05)
      ∧ ¬ ((asciiChars (strBytes "hello")).length = 12
          ∧ (asciiChars (strBytes "hello")).all pyIsDigit = true)
      ∧ (format_ip_parameter_value 0x01 (strBytes "hello")).1
          = (if ascii_text (strBytes "hello") ≠ "" then ascii_text (strBytes "hello")
             else if raw_hex (strBytes "hello") ≠ "" then raw_hex (strBytes "hello")
             else "(no data)"))
    ∧ (((0x06 : Nat) = 0x06 ∨ (0x06 : Nat) = 0x07)
      ∧ ([0x01] : List Nat).length ≠ 6
      ∧ ¬ ((asciiChars [0x01]).length = 12
          ∧ (asciiChars [0x01]).all pyIsHexDigit = true)
      ∧ (format_ip_parameter_value 0x06 [0x01]).1
          = (if ascii_text [0x01] ≠ "" then ascii_text [0x01]
             else if raw_hex [0x01] ≠ "" then raw_hex [0x01]
             else "(no data)")) :=
  ⟨⟨Or.inl rfl, by decide, by decide,
      ip_parameter_value_formatting.1 0x01 (strBytes "192168001001")
        (Or.inl rfl) (by decide) (by decide)⟩,
    ⟨Or.inl rfl, by decide,
      ip_parameter_value_formatting.2.1 0x06 [0xAA, 0xBB, 0xCC, 0x11, 0x22, 0x33]
        (Or.inl rfl) (by decide)⟩,
    ⟨Or.inr rfl, by decide, by decide, by decide,
      ip_parameter_value_formatting.2.2.1 0x07 (strBytes "aabbcc112233")
        (Or.inr rfl) (by decide) (by decide) (by decide)⟩,
    ⟨by decide,
      ip_parameter_value_formatting.2.2.2.1 0x20 (strBytes "hello") (by decide)⟩,
    ⟨Or.inl rfl, by decide,
      ip_parameter_value_formatting.2.2.2.2.1 0x01 (strBytes "hello")
        (Or.inl rfl) (by decide)⟩,
    ⟨Or.inl rfl, by decide, by decide,
      ip_parameter_value_formatting.2.2.2.2.2.1 0x06 [0x01]
        (Or.inl rfl) (by decide) (by decide)⟩⟩

end Sicppy
